import Mathlib

/-
Verification of the Koodev-Hock penalty-shootout simulation core.

The repository holds three variants of the game:
  * a skeleton variant (rendering only),
  * a Havok-based variant (the `GameState` record with `shoot`, `startRound`,
    `onGoalScored`, `endRound`, `gameLoop`) — embedded below as `HState` and
    the keeper functions,
  * a custom-physics variant (`GAME_CONFIG`, `updateBallPhysics`, `checkGoal`,
    `roundEnd`, `shootBall`, `nextRound`) — embedded below as `VState`.

All real-number quantities are modelled over ℚ; every constant in the source
is a decimal literal, so this is exact. `Math.random()` draws are modelled as
an explicit oracle argument `r : ℚ` in [0,1].
-/

namespace KoodevHock

/-! ## Constants (GAME_CONFIG of the custom-physics variant) -/

def GOAL_WIDTH : ℚ := 366/100
def GOAL_HEIGHT : ℚ := 214/100
def SHOOTING_CIRCLE_RADIUS : ℚ := 1463/100
def BALL_RADIUS : ℚ := 3655/100000
def MAX_SHOT_SPEED : ℚ := 31
def SHOT_TIME_LIMIT : ℚ := 8
def ROUNDS : Nat := 5
def TURF_FRICTION : ℚ := 4/10
def RESTITUTION : ℚ := 5/10

/-- Gravitational acceleration 9.81 m/s², as hard-coded in `updateBallPhysics`. -/
def GRAVITY : ℚ := 981/100

/-- The fixed tick duration 0.016 s hard-coded throughout the render loop. -/
def DT : ℚ := 16/1000

/-! ## Vectors and ball kinematics -/

structure Vec3 where
  x : ℚ
  y : ℚ
  z : ℚ
deriving DecidableEq, Repr

def Vec3.scale (v : Vec3) (k : ℚ) : Vec3 := ⟨v.x * k, v.y * k, v.z * k⟩

def Vec3.add (a b : Vec3) : Vec3 := ⟨a.x + b.x, a.y + b.y, a.z + b.z⟩

/-- Squared Euclidean norm; comparisons `‖v‖ < c` from the source are stated
as `normSq v < c^2`, which is equivalent for `c ≥ 0`. -/
def Vec3.normSq (v : Vec3) : ℚ := v.x ^ 2 + v.y ^ 2 + v.z ^ 2

structure BallState where
  pos : Vec3
  vel : Vec3
deriving DecidableEq, Repr

/-- Kinematics portion of `updateBallPhysics` (custom-physics variant),
transcribed in the source's statement order: position advance, then friction
damping, then the gravity / ground-collision branch.  The ground test and the
clamp use `BALL_RADIUS * 500` exactly as the source does. -/
def updateBallKinematics (s : BallState) : BallState :=
  let pos1 := s.pos.add (s.vel.scale DT)
  let vel1 := s.vel.scale (1 - TURF_FRICTION * DT)
  if pos1.y > BALL_RADIUS * 500 then
    { pos := pos1, vel := { vel1 with y := vel1.y - GRAVITY * DT } }
  else
    { pos := { pos1 with y := BALL_RADIUS * 500 },
      vel := if vel1.y < 0 then { vel1 with y := -vel1.y * RESTITUTION } else vel1 }

/-- Modelled from the spec: the three-step integrator exactly as §4.1 states
it — damp velocity, then gravity or ground clamp against the ball radius,
then advance position — for comparison with `updateBallKinematics`. -/
def specIntegratorStep (s : BallState) : BallState :=
  let vel1 := s.vel.scale (1 - TURF_FRICTION * DT)
  if s.pos.y > BALL_RADIUS then
    let vel2 := { vel1 with y := vel1.y - GRAVITY * DT }
    { pos := s.pos.add (vel2.scale DT), vel := vel2 }
  else
    let vel2 := if vel1.y < 0 then { vel1 with y := -vel1.y * RESTITUTION } else vel1
    { pos := ({ s.pos with y := BALL_RADIUS }).add (vel2.scale DT), vel := vel2 }

/-- Position-advance sub-step of `updateBallPhysics`. -/
def moveStep (s : BallState) : BallState :=
  { s with pos := s.pos.add (s.vel.scale DT) }

/-- Friction-damping sub-step of `updateBallPhysics`. -/
def frictionStep (s : BallState) : BallState :=
  { s with vel := s.vel.scale (1 - TURF_FRICTION * DT) }

/-- Gravity / ground-collision sub-step of `updateBallPhysics`, with the
source's `BALL_RADIUS * 500` threshold. -/
def gravityGroundStep (s : BallState) : BallState :=
  if s.pos.y > BALL_RADIUS * 500 then
    { s with vel := { s.vel with y := s.vel.y - GRAVITY * DT } }
  else
    { pos := { s.pos with y := BALL_RADIUS * 500 },
      vel := if s.vel.y < 0 then { s.vel with y := -s.vel.y * RESTITUTION } else s.vel }

/-- The ball state at round start in the custom-physics variant:
`new Vector3(0, 0.15, 10)` with zero velocity. -/
def ballStart : BallState := { pos := ⟨0, 15/100, 10⟩, vel := ⟨0, 0, 0⟩ }

/-- C1 counterexample: on the round-start ball state the code's tick and the
spec's three-step algorithm disagree (the code clamps `position.y` up to
`BALL_RADIUS * 500 = 18.275` because the ground threshold uses the render
scale, and it advances position before damping velocity, not after). -/
theorem integrator_not_spec_three_step :
    updateBallKinematics ballStart ≠ specIntegratorStep ballStart := by
  have hy : (updateBallKinematics ballStart).pos.y ≠ (specIntegratorStep ballStart).pos.y := by
    norm_num [updateBallKinematics, specIntegratorStep, ballStart, Vec3.add, Vec3.scale,
      BALL_RADIUS, DT, TURF_FRICTION, GRAVITY, RESTITUTION]
  exact fun h => hy (congrArg (fun b => b.pos.y) h)

/-- C1 (amended): each tick of `updateBallPhysics` is exactly the composition
position-advance, then friction damping, then the gravity / ground branch with
threshold `BALL_RADIUS * 500` — in that order, for every ball state. -/
theorem integrator_step_decomposition (s : BallState) :
    updateBallKinematics s = gravityGroundStep (frictionStep (moveStep s)) := by
  unfold updateBallKinematics gravityGroundStep frictionStep moveStep
  dsimp only

/-! ## Custom-physics variant: game state, shot model, outcome checks -/

inductive GState where
  | menu
  | aiming
  | shooting
  | goalkeeper
  | result
  | game_over
deriving DecidableEq, Repr

/-- Mutable fields of the custom-physics variant's `KoodevHock` class that the
embedded methods read or write. -/
structure VState where
  ballPos : Vec3
  ballVel : Vec3
  gameState : GState
  playerScore : Nat
  aiScore : Nat
  currentRound : Nat
  shotTimer : ℚ
  ballShot : Bool
  shotPower : ℚ
  isCharging : Bool
deriving DecidableEq, Repr

/-- Transcription of `checkGoal`: inside the aperture increments the player
score; either way the game state becomes `result`.  No goalkeeper is
consulted. -/
def checkGoal (s : VState) : VState :=
  if |s.ballPos.x| < GOAL_WIDTH / 2 ∧ s.ballPos.y < GOAL_HEIGHT then
    { s with playerScore := s.playerScore + 1, gameState := GState.result }
  else
    { s with gameState := GState.result }

/-- Transcription of `roundEnd`: the `Math.random()` draw is the explicit
oracle `r`; `didGoalkeeper` is `r > 0.6`, and only when the keeper "fails"
does the player score. -/
def roundEnd (r : ℚ) (s : VState) : VState :=
  if s.gameState = GState.shooting then
    let didGoalkeeper := r > 6/10
    let s1 := if didGoalkeeper then s else { s with playerScore := s.playerScore + 1 }
    { s1 with gameState := GState.result }
  else s

/-- Transcription of the full `updateBallPhysics` method: kinematics, then the
goal-area check triggering `checkGoal`, then the stopped-ball check triggering
`roundEnd` (whose random draw is the oracle `r`).  The source's
`ballVelocity.length() < 0.1` is stated on squared norms. -/
def updateBallPhysics (r : ℚ) (s : VState) : VState :=
  let b := updateBallKinematics { pos := s.ballPos, vel := s.ballVel }
  let s1 := { s with ballPos := b.pos, ballVel := b.vel }
  let s2 := if b.pos.z < -SHOOTING_CIRCLE_RADIUS - 5 then checkGoal s1 else s1
  if b.vel.normSq < (1/10)^2 ∧ b.pos.y < 1 then roundEnd r s2 else s2

/-- Velocity computed inside `shootBall`: effective power is
`min shotPower 1` while charging, else the default `0.6`; horizontal component
`mouseX * 5`, vertical `speed * 0.5` only for a scoop, depth `-speed`. -/
def shootVelocity (charging : Bool) (shotPower mouseX : ℚ) (scoop : Bool) : Vec3 :=
  let power := if charging then min shotPower 1 else 6/10
  let speed := power * MAX_SHOT_SPEED
  let dirX := mouseX * 5
  let dirZ := -speed
  ⟨dirX, if scoop then speed * (1/2) else 0, dirZ⟩

/-- Transcription of `shootBall` as a state transformer: a no-op when
`ballShot` is already set, otherwise marks the shot, enters `shooting` and
installs the initial velocity. -/
def shootBallStep (s : VState) (mouseX : ℚ) (scoop : Bool) : VState :=
  if s.ballShot then s
  else { s with
         ballShot := true, gameState := GState.shooting
         ballVel := shootVelocity s.isCharging s.shotPower mouseX scoop }

/-- Transcription of `resetRound`. -/
def resetRound (s : VState) : VState :=
  { s with
    ballPos := ⟨0, 15/100, 10⟩, ballVel := ⟨0, 0, 0⟩, ballShot := false
    shotTimer := SHOT_TIME_LIMIT, shotPower := 0, isCharging := false
    gameState := GState.aiming }

/-- Transcription of `nextRound`: advance the round; past the configured
rounds the game is over, otherwise reset for the next attempt. -/
def nextRound (s : VState) : VState :=
  let s1 := { s with currentRound := s.currentRound + 1 }
  if s1.currentRound > ROUNDS then { s1 with gameState := GState.game_over }
  else resetRound s1

/-- A state in which the stopped-ball resolution of `roundEnd` fires: a shot
is in flight (`shooting`) with the scores still level. -/
def stoppedShotState : VState :=
  { ballPos := ⟨0, 3655/200, 20⟩, ballVel := ⟨0, 0, 0⟩, gameState := GState.shooting,
    playerScore := 0, aiScore := 0, currentRound := 1, shotTimer := 4,
    ballShot := true, shotPower := 1, isCharging := false }

/-- C2: the round outcome on the stopped-ball path is decided by the
`Math.random()` draw, not by keeper position — with identical ball and keeper
geometry, a draw of 0.7 denies the goal and a draw of 0.5 grants it. -/
theorem roundEnd_save_depends_on_random_draw :
    (roundEnd (7/10) stoppedShotState).playerScore = stoppedShotState.playerScore ∧
    (roundEnd (5/10) stoppedShotState).playerScore = stoppedShotState.playerScore + 1 := by
  constructor <;> norm_num [roundEnd, stoppedShotState]

/-- Lower bound produced by the ground clamp: after any kinematics tick the
ball's height is at least `BALL_RADIUS * 500`. -/
theorem updateBallKinematics_y_lb (s : BallState) :
    BALL_RADIUS * 500 ≤ (updateBallKinematics s).pos.y := by
  unfold updateBallKinematics
  dsimp only
  split_ifs with h h2
  · exact le_of_lt h
  · exact le_refl _
  · exact le_refl _

/-- C3: one shooting-state tick (`updateBallPhysics` with the goal and
stopped-ball checks it triggers) is a pure function of the state, Δt and the
constants: its result does not depend on the random oracle, for every state.
(The only random consumer, `roundEnd`, sits behind `ballPosition.y < 1`,
which the ground clamp at `BALL_RADIUS * 500 = 18.275` makes unreachable.) -/
theorem shooting_tick_deterministic (r1 r2 : ℚ) (s : VState) :
    updateBallPhysics r1 s = updateBallPhysics r2 s := by
  have hlb := updateBallKinematics_y_lb { pos := s.ballPos, vel := s.ballVel }
  have h1 : (1:ℚ) ≤ BALL_RADIUS * 500 := by norm_num [BALL_RADIUS]
  have hy : ¬ ((updateBallKinematics { pos := s.ballPos, vel := s.ballVel }).pos.y < 1) :=
    not_lt.mpr (le_trans h1 hlb)
  have hC : ¬ ((updateBallKinematics { pos := s.ballPos, vel := s.ballVel }).vel.normSq
        < (1/10)^2 ∧ (updateBallKinematics { pos := s.ballPos, vel := s.ballVel }).pos.y < 1) :=
    fun hc => hy hc.2
  unfold updateBallPhysics
  dsimp only
  rw [if_neg hC, if_neg hC]

/-- C4 counterexample: a full-power push shot aimed off-center
(`mouseX = 1`) has squared speed 986, not `MAX_SHOT_SPEED ^ 2 = 961`, because
the code adds the horizontal component `mouseX * 5` on top of the depth
component `power * MAX_SHOT_SPEED`. -/
theorem shot_speed_offcenter_exceeds_max :
    (shootVelocity true 1 1 false).normSq ≠ ((1:ℚ) * MAX_SHOT_SPEED)^2 := by
  norm_num [shootVelocity, Vec3.normSq, MAX_SHOT_SPEED]

/-- C4 (amended): the depth component of every charging push shot has
magnitude `power * MAX_SHOT_SPEED` (power = min(shotPower, 1)), and the full
speed equals `power * MAX_SHOT_SPEED` exactly for dead-center aim
(`mouseX = 0`); in particular power 1 centered gives exactly 31 m/s. -/
theorem shot_speed_centered (sp mx : ℚ) (h0 : 0 ≤ sp) (h1 : sp ≤ 1) :
    (shootVelocity true sp mx false).z = -(sp * MAX_SHOT_SPEED) ∧
    (shootVelocity true sp 0 false).normSq = (sp * MAX_SHOT_SPEED)^2 := by
  have hmin : min sp 1 = sp := min_eq_left h1
  constructor
  · simp [shootVelocity, hmin]
  · simp [shootVelocity, Vec3.normSq, hmin]

/-- Witness for `shot_speed_centered` at power 1. -/
theorem shot_speed_centered_witness :
    ((0:ℚ) ≤ 1 ∧ (1:ℚ) ≤ 1) ∧
    ((shootVelocity true 1 2 false).z = -((1:ℚ) * MAX_SHOT_SPEED) ∧
     (shootVelocity true 1 0 false).normSq = ((1:ℚ) * MAX_SHOT_SPEED)^2) :=
  ⟨⟨by norm_num, le_refl 1⟩, shot_speed_centered 1 2 (by norm_num) (le_refl 1)⟩

/-- C9: submitting a shot when one has already been taken this round leaves
the entire state — velocity, game state, scores, round — unchanged. -/
theorem second_shot_noop (s : VState) (mx : ℚ) (sc : Bool) (h : s.ballShot = true) :
    shootBallStep s mx sc = s := by
  simp [shootBallStep, h]

/-- A mid-round state in which the shot has already been taken. -/
def shotTakenState : VState :=
  { ballPos := ⟨0, 15/100, 6⟩, ballVel := ⟨0, 0, -10⟩, gameState := GState.shooting,
    playerScore := 2, aiScore := 0, currentRound := 3, shotTimer := 4,
    ballShot := true, shotPower := 1/2, isCharging := true }

/-- Witness for `second_shot_noop` on a concrete mid-round state. -/
theorem second_shot_noop_witness :
    shotTakenState.ballShot = true ∧ shootBallStep shotTakenState 1 false = shotTakenState :=
  ⟨rfl, second_shot_noop shotTakenState 1 false rfl⟩

/-! ## Havok variant: goalkeeper controller (`gameLoop`) -/

/-- Babylon `Scalar.Lerp`. -/
def lerp (a b t : ℚ) : ℚ := a + (b - a) * t

/-- Babylon `Scalar.Clamp`. -/
def clamp (v lo hi : ℚ) : ℚ := min (max v lo) hi

/-- Keeper clamp lower bound `-GOAL_WIDTH/2 + 0.5` from `gameLoop` (0.5 is
half the goalie box width 1). -/
def KEEPER_MIN : ℚ := -GOAL_WIDTH/2 + 1/2

/-- Keeper clamp upper bound `GOAL_WIDTH/2 - 0.5` from `gameLoop`. -/
def KEEPER_MAX : ℚ := GOAL_WIDTH/2 - 1/2

/-- Keeper x-update of one `gameLoop` tick: nothing before the shot; once the
shot is taken, lerp toward `ball.x * 0.7` with gain 0.02 and clamp to the goal
mouth.  The source has no reaction-delay state of any kind. -/
def keeperTick (shotTaken : Bool) (goalieX ballX : ℚ) : ℚ :=
  if shotTaken then clamp (lerp goalieX (ballX * (7/10)) (2/100)) KEEPER_MIN KEEPER_MAX
  else goalieX

/-- Keeper position after a sequence of `gameLoop` ticks, each tick supplying
the shot-taken flag and the ball's x at that tick. -/
def keeperRun (x0 : ℚ) (ticks : List (Bool × ℚ)) : ℚ :=
  ticks.foldl (fun x t => keeperTick t.1 x t.2) x0

/-- C5: on the very first `gameLoop` tick after the shot is released (zero
elapsed delay) the keeper already moves toward the ball: from center with the
ball at x = 1 it steps to 0.014 ≠ 0.  No 200–300 ms reaction window exists. -/
theorem keeper_moves_on_first_tick :
    keeperTick true 0 1 = 7/500 ∧ (7/500 : ℚ) ≠ 0 := by
  constructor
  · norm_num [keeperTick, lerp, clamp, KEEPER_MIN, KEEPER_MAX, GOAL_WIDTH]
  · norm_num

/-- Bounds of one keeper tick: a position inside the goal-mouth interval
stays inside it. -/
theorem keeperTick_mem (st : Bool) (x bx : ℚ)
    (h0 : KEEPER_MIN ≤ x) (h1 : x ≤ KEEPER_MAX) :
    KEEPER_MIN ≤ keeperTick st x bx ∧ keeperTick st x bx ≤ KEEPER_MAX := by
  have hlohi : KEEPER_MIN ≤ KEEPER_MAX := by
    norm_num [KEEPER_MIN, KEEPER_MAX, GOAL_WIDTH]
  cases st with
  | false => exact ⟨h0, h1⟩
  | true =>
      refine ⟨?_, ?_⟩
      · exact le_min (le_max_right _ _) hlohi
      · exact min_le_right _ _

/-- C6: for every starting position inside the goal-mouth interval and every
ball trajectory, the keeper's x stays within
`[-(GOAL_WIDTH/2 - 1/2), GOAL_WIDTH/2 - 1/2]` after any number of ticks. -/
theorem keeper_within_bounds (x0 : ℚ) (ticks : List (Bool × ℚ))
    (h0 : KEEPER_MIN ≤ x0) (h1 : x0 ≤ KEEPER_MAX) :
    KEEPER_MIN ≤ keeperRun x0 ticks ∧ keeperRun x0 ticks ≤ KEEPER_MAX := by
  induction ticks generalizing x0 with
  | nil => exact ⟨h0, h1⟩
  | cons t ts ih =>
      have h := keeperTick_mem t.1 x0 t.2 h0 h1
      exact ih (keeperTick t.1 x0 t.2) h.1 h.2

/-- Witness for `keeper_within_bounds`: start at center, ball far out wide. -/
theorem keeper_within_bounds_witness :
    (KEEPER_MIN ≤ 0 ∧ (0:ℚ) ≤ KEEPER_MAX) ∧
    (KEEPER_MIN ≤ keeperRun 0 [(true, 5), (true, 5), (true, 5)] ∧
     keeperRun 0 [(true, 5), (true, 5), (true, 5)] ≤ KEEPER_MAX) := by
  have ha : KEEPER_MIN ≤ (0:ℚ) := by norm_num [KEEPER_MIN, GOAL_WIDTH]
  have hb : (0:ℚ) ≤ KEEPER_MAX := by norm_num [KEEPER_MAX, GOAL_WIDTH]
  exact ⟨⟨ha, hb⟩, keeper_within_bounds 0 [(true, 5), (true, 5), (true, 5)] ha hb⟩

/-! ## Havok variant: round/match state machine (`GameState` record) -/

inductive Outcome where
  | GOAL
  | MISS
deriving DecidableEq, Repr

/-- The Havok variant's `GameState` record, plus `lastOutcome`, which models
the result label the code writes into the message box when a round ends. -/
structure HState where
  round : Nat
  home : Nat
  away : Nat
  shotTaken : Bool
  timer : ℤ
  isGameOver : Bool
  lastOutcome : Option Outcome
deriving DecidableEq, Repr

def TOTAL_ROUNDS : Nat := 5

def TIMEOUT_SECONDS : ℤ := 8

/-- State effects of `startRound` (the ball and goalie resets live outside
this record). -/
def startRound (s : HState) : HState :=
  { s with shotTaken := false, timer := TIMEOUT_SECONDS }

/-- Transcription of `endRound`: bail out when the game is over; record the
result and score a GOAL; then (after the 2 s dwell) advance the round and
either finish the match or start the next round. -/
def endRound (result : Outcome) (s : HState) : HState :=
  if s.isGameOver then s
  else
    let s1 := { s with
                lastOutcome := some result
                home := if result = Outcome.GOAL then s.home + 1 else s.home }
    let s2 := { s1 with round := s1.round + 1 }
    if s2.round > TOTAL_ROUNDS then { s2 with isGameOver := true }
    else startRound s2

/-- Transcription of `onGoalScored` (goal-trigger intersection callback). -/
def onGoalScored (s : HState) : HState :=
  if s.isGameOver then s
  else
    let s1 := { s with home := s.home + 1 }
    let s2 := { s1 with round := s1.round + 1 }
    if s2.round > TOTAL_ROUNDS then { s2 with isGameOver := true }
    else startRound s2

/-- One firing of the `startRound` timer interval: decrement the timer and,
when it reaches 0, resolve the round as a MISS. -/
def timerTick (s : HState) : HState :=
  let s1 := { s with timer := s.timer - 1 }
  if s1.timer ≤ 0 then endRound Outcome.MISS s1 else s1

/-- The initial `GameState` value of the Havok variant. -/
def initHState : HState :=
  { round := 1, home := 0, away := 0, shotTaken := false,
    timer := TIMEOUT_SECONDS, isGameOver := false, lastOutcome := none }

/-- C7: when the round timer reaches 0 with no shot taken and the match not
over, the round resolves as a MISS, both scores are unchanged, and the round
number advances by one. -/
theorem timeout_resolves_miss (s : HState) (hg : s.isGameOver = false)
    (hs : s.shotTaken = false) (ht : s.timer = 1) :
    (timerTick s).lastOutcome = some Outcome.MISS ∧
    (timerTick s).home = s.home ∧ (timerTick s).away = s.away ∧
    (timerTick s).round = s.round + 1 := by
  unfold timerTick endRound startRound
  rw [ht]
  norm_num [hg]
  split_ifs <;> simp_all

/-- An `Aiming` state one second from timeout, shot not yet taken. -/
def aimingTimeoutState : HState :=
  { round := 2, home := 1, away := 0, shotTaken := false, timer := 1,
    isGameOver := false, lastOutcome := none }

/-- Witness for `timeout_resolves_miss` on a concrete aiming state. -/
theorem timeout_resolves_miss_witness :
    (aimingTimeoutState.isGameOver = false ∧ aimingTimeoutState.shotTaken = false ∧
     aimingTimeoutState.timer = 1) ∧
    ((timerTick aimingTimeoutState).lastOutcome = some Outcome.MISS ∧
     (timerTick aimingTimeoutState).home = aimingTimeoutState.home ∧
     (timerTick aimingTimeoutState).away = aimingTimeoutState.away ∧
     (timerTick aimingTimeoutState).round = aimingTimeoutState.round + 1) :=
  ⟨⟨rfl, rfl, rfl⟩, timeout_resolves_miss aimingTimeoutState rfl rfl rfl⟩

/-- The match after five straight MISS rounds from the initial state. -/
def fiveMissMatch : HState :=
  endRound Outcome.MISS (endRound Outcome.MISS (endRound Outcome.MISS
    (endRound Outcome.MISS (endRound Outcome.MISS initHState))))

/-- C8 refutation: after the five regulation rounds all end MISS, the code
sets `isGameOver` with the scores tied (0–0) — no sudden death is entered,
so the match does reach game-over with a tied score. -/
theorem regulation_tie_ends_match :
    fiveMissMatch.isGameOver = true ∧ fiveMissMatch.home = fiveMissMatch.away := by
  decide

/-! ## Invariant: the away/AI score is never incremented -/

/-- The externally-triggered operations of the Havok variant that touch the
`GameState` record. -/
inductive GameEvent where
  | timerStep
  | goalTrigger
  | stoppedBall
  | shotRelease
deriving DecidableEq, Repr

/-- Dispatch of one event: the timer interval firing, the goal-trigger
callback, the `gameLoop` stopped-ball resolution (guarded as in the source),
or the `shoot` entry point setting `shotTaken`. -/
def step (e : GameEvent) (s : HState) : HState :=
  match e with
  | GameEvent.timerStep => timerTick s
  | GameEvent.goalTrigger => onGoalScored s
  | GameEvent.stoppedBall =>
      if s.shotTaken = true ∧ s.timer < TIMEOUT_SECONDS - 1 then endRound Outcome.MISS s
      else s
  | GameEvent.shotRelease => if s.shotTaken then s else { s with shotTaken := true }

/-- A whole play-through: fold the event sequence over the state. -/
def run (evs : List GameEvent) (s : HState) : HState :=
  evs.foldl (fun s e => step e s) s

theorem endRound_away (o : Outcome) (s : HState) : (endRound o s).away = s.away := by
  unfold endRound startRound
  dsimp only
  split_ifs <;> rfl

theorem onGoalScored_away (s : HState) : (onGoalScored s).away = s.away := by
  unfold onGoalScored startRound
  dsimp only
  split_ifs <;> rfl

theorem timerTick_away (s : HState) : (timerTick s).away = s.away := by
  unfold timerTick
  dsimp only
  split_ifs with h
  · exact endRound_away _ _
  · rfl

theorem step_away (e : GameEvent) (s : HState) : (step e s).away = s.away := by
  cases e with
  | timerStep => exact timerTick_away s
  | goalTrigger => exact onGoalScored_away s
  | stoppedBall =>
      simp only [step]
      split_ifs with h
      · exact endRound_away _ _
      · rfl
  | shotRelease =>
      simp only [step]
      split_ifs <;> rfl

theorem run_away (evs : List GameEvent) (s : HState) : (run evs s).away = s.away := by
  induction evs generalizing s with
  | nil => rfl
  | cons e es ih =>
      calc (run (e :: es) s).away = (run es (step e s)).away := rfl
        _ = (step e s).away := ih (step e s)
        _ = s.away := step_away e s

theorem checkGoal_aiScore (s : VState) : (checkGoal s).aiScore = s.aiScore := by
  unfold checkGoal
  split_ifs <;> rfl

theorem roundEnd_aiScore (r : ℚ) (s : VState) : (roundEnd r s).aiScore = s.aiScore := by
  unfold roundEnd
  dsimp only
  split_ifs <;> rfl

theorem updateBallPhysics_aiScore (r : ℚ) (s : VState) :
    (updateBallPhysics r s).aiScore = s.aiScore := by
  unfold updateBallPhysics
  dsimp only
  split_ifs <;> simp [roundEnd_aiScore, checkGoal_aiScore]

theorem nextRound_aiScore (s : VState) : (nextRound s).aiScore = s.aiScore := by
  unfold nextRound resetRound
  dsimp only
  split_ifs <;> rfl

theorem shootBallStep_aiScore (s : VState) (mx : ℚ) (sc : Bool) :
    (shootBallStep s mx sc).aiScore = s.aiScore := by
  unfold shootBallStep
  split_ifs <;> rfl

/-- C10: the opponent score is identically zero.  In the Havok variant, every
event sequence from the initial state leaves `away = 0` (so the player's
score is never below the opponent's); in the custom-physics variant, none of
the score-touching operations ever changes `aiScore`. -/
theorem away_score_zero :
    (∀ evs : List GameEvent,
        (run evs initHState).away = 0 ∧
        (run evs initHState).away ≤ (run evs initHState).home)
    ∧ (∀ (r : ℚ) (s : VState) (mx : ℚ) (sc : Bool),
        (updateBallPhysics r s).aiScore = s.aiScore ∧
        (checkGoal s).aiScore = s.aiScore ∧
        (roundEnd r s).aiScore = s.aiScore ∧
        (nextRound s).aiScore = s.aiScore ∧
        (shootBallStep s mx sc).aiScore = s.aiScore) := by
  constructor
  · intro evs
    have h0 : (run evs initHState).away = 0 := (run_away evs initHState).trans rfl
    exact ⟨h0, h0 ▸ Nat.zero_le _⟩
  · intro r s mx sc
    exact ⟨updateBallPhysics_aiScore r s, checkGoal_aiScore s, roundEnd_aiScore r s,
      nextRound_aiScore s, shootBallStep_aiScore s mx sc⟩

end KoodevHock
